import Mathlib

/-!
Shallow embedding of the SeatMap ticketing system's polar layout and
interaction engine (`src/App.tsx` and `src/components/AdminPanel.tsx`,
the latter also containing the inline `DragDropAdmin` component).

Conventions of the embedding:

* JavaScript numbers are idealised as exact rationals.
* Angles are represented by their measure in units of pi: a rational `q`
  stands for `q * pi` radians.  Every angle computation reached by the
  claims (normalisation by adding `2*pi`, comparisons, snapping, span
  arithmetic) is linear in the angle, so this scaling is exact; the
  literal `2*Math.PI` becomes `2` and the `Math.PI/12` grid step becomes
  `1/12`; `350` degrees is `35/18`.
* `Math.atan2` and `Math.sqrt`-of-a-sum are transcendental.  Where the
  source converts a pointer position to polar coordinates, the embedding
  takes the resulting distance and angle as inputs (any pair with
  distance nonnegative and angle in `(-1, 1]` units of pi is realised by
  some pointer position).  The Euclidean-distance comparison in the seat
  hit test is embedded as the equivalent squared comparison, exact
  because both sides are nonnegative.
-/

set_option allowUnsafeReducibility true

attribute [local semireducible] Rat.mul Rat.add Rat.sub Rat.inv Rat.ofScientific

inductive SeatStatus
  | available
  | selected
  | occupied
  | premium
deriving DecidableEq, Repr

structure Seat where
  id : String
  row : ℕ
  seatNumber : ℕ
  sector : String
  x : ℚ
  y : ℚ
  status : SeatStatus
  price : ℚ
deriving DecidableEq, Repr

inductive SectorShape
  | rounded
  | sided
deriving DecidableEq, Repr

structure Sector where
  id : String
  name : String
  startAngle : ℚ
  endAngle : ℚ
  innerRadius : ℚ
  outerRadius : ℚ
  color : String
  basePrice : ℚ
  premiumPrice : ℚ
  seats : List Seat
  shape : SectorShape
deriving DecidableEq, Repr

structure ViewState where
  scale : ℚ
  offsetX : ℚ
  offsetY : ℚ
  centerX : ℚ
  centerY : ℚ
deriving DecidableEq, Repr

structure CartItem where
  seat : Seat
  quantity : ℕ
deriving DecidableEq, Repr

/-- One conditional addition of `2*pi`, the normalisation used inline in
`getSectorAtPosition` (App.tsx lines 512-519 and the identical copy in
AdminPanel.tsx lines 866-873): `if (a < 0) a += 2 * Math.PI`. -/
def normOnce (a : ℚ) : ℚ :=
  if a < 0 then a + 2 else a

/-- Fuel-bounded iteration of the `while (a < 0) a += 2 * Math.PI` loop
body.  The fuel only bounds the number of iterations; `normWhile` below
always supplies enough fuel for the loop to run to completion. -/
def normWhileGo : ℕ → ℚ → ℚ
  | 0, a => a
  | n + 1, a => if a < 0 then normWhileGo n (a + 2) else a

/-- The `while (a < 0) a += 2 * Math.PI` normalisation loop used in
`checkAdminSectorCollision` (App.tsx lines 167-170) and `checkCollision`
(AdminPanel.tsx lines 819-822).  Each iteration adds `2`, so
`ceil (-a) + 1` iterations always suffice to leave the loop. -/
def normWhile (a : ℚ) : ℚ :=
  normWhileGo ((-a).ceil.toNat + 1) a

/-- JavaScript `Math.round`: round half toward positive infinity. -/
def jsRound (q : ℚ) : ℤ :=
  ⌊q + 1 / 2⌋

/-- App.tsx `snapToGrid` (lines 182-186): identity when the grid is
hidden, otherwise rounds to the nearest multiple of 15 degrees
(`Math.PI / 12`, i.e. `1/12` in units of pi). -/
def snapToGrid (showGrid : Bool) (angle : ℚ) : ℚ :=
  if !showGrid then angle
  else
    let gridSize : ℚ := 1 / 12
    (jsRound (angle / gridSize) : ℚ) * gridSize

/-- The angular membership test inlined in `getSectorAtPosition`
(App.tsx lines 510-530, identical in AdminPanel.tsx lines 864-885):
each of angle, start and stop gets at most ONE conditional addition of
`2*pi`, then the wrap-aware interval comparison. -/
def angleInRange (angle start stop : ℚ) : Bool :=
  let a := normOnce angle
  let s := normOnce start
  let e := normOnce stop
  if s > e then decide (a ≥ s) || decide (a ≤ e)
  else decide (a ≥ s) && decide (a ≤ e)

/-- Modelled from the spec: the spec (section 4.2) describes
`angleInRange` as normalising angle, start and stop independently into
`[0, 2*pi)` by REPEATED addition of `2*pi`.  This definition follows the
spec's words (using the repeated-addition loop that the source only uses
in its collision checks) and exists to be compared with the source's
`angleInRange` above, whose normalisation is a single conditional
addition. -/
def angleInRangeSpec (angle start stop : ℚ) : Bool :=
  let a := normWhile angle
  let s := normWhile start
  let e := normWhile stop
  if s > e then decide (a ≥ s) || decide (a ≤ e)
  else decide (a ≥ s) && decide (a ≤ e)

/-- App.tsx `checkAdminSectorCollision` (lines 146-180): builds the
candidate span of width `endAngle - startAngle` centred at `newAngle`,
then reports a collision when some OTHER sector overlaps it in radial
range and, after while-loop normalisation, in angular range (non-strict
interval comparison). -/
def checkAdminSectorCollision (sectors : List Sector) (draggedSector : Sector)
    (newAngle : ℚ) : Bool :=
  let sectorSpan := draggedSector.endAngle - draggedSector.startAngle
  let newStartAngle := newAngle - sectorSpan / 2
  let newEndAngle := newAngle + sectorSpan / 2
  sectors.any fun sector =>
    if sector.id = draggedSector.id then false
    else
      let radiusOverlap := !(decide (draggedSector.outerRadius < sector.innerRadius) ||
        decide (draggedSector.innerRadius > sector.outerRadius))
      if radiusOverlap then
        let normalizedNewStart := normWhile newStartAngle
        let normalizedNewEnd := normWhile newEndAngle
        let sectorStart := normWhile sector.startAngle
        let sectorEnd := normWhile sector.endAngle
        !(decide (normalizedNewEnd < sectorStart) || decide (normalizedNewStart > sectorEnd))
      else false

/-- AdminPanel.tsx (DragDropAdmin) `checkCollision` (lines 802-833): the
same test but taking the candidate start and end angles directly. -/
def checkCollision (sectors : List Sector) (sector : Sector)
    (newStartAngle newEndAngle : ℚ) : Bool :=
  sectors.any fun otherSector =>
    if otherSector.id = sector.id then false
    else
      let radiusOverlap := !(decide (sector.outerRadius < otherSector.innerRadius) ||
        decide (sector.innerRadius > otherSector.outerRadius))
      if radiusOverlap then
        let normalizedStart := normWhile newStartAngle
        let normalizedEnd := normWhile newEndAngle
        let otherStart := normWhile otherSector.startAngle
        let otherEnd := normWhile otherSector.endAngle
        !(decide (normalizedEnd < otherStart) || decide (normalizedStart > otherEnd))
      else false

/-- App.tsx `getSeatAtPosition` (lines 481-496): inverse view transform,
then the first seat (scanning sectors in order, seats in order) whose
Euclidean distance to the transformed point is below
`4 * max(1, scale/5)`.  The source compares `Math.sqrt(d2) < r`; both
sides are nonnegative, so the squared comparison below is equivalent. -/
def getSeatAtPosition (view : ViewState) (sectors : List Sector) (x y : ℚ) : Option Seat :=
  let transformedX := (x - view.offsetX) / view.scale
  let transformedY := (y - view.offsetY) / view.scale
  sectors.findSome? fun sector =>
    sector.seats.find? fun seat =>
      let hitRadius := 4 * max 1 (view.scale / 5)
      decide ((transformedX - seat.x) ^ 2 + (transformedY - seat.y) ^ 2 < hitRadius ^ 2)

/-- App.tsx `getSectorAtPosition` (lines 498-533): returns null whenever
`view.scale > 3`, otherwise the first sector containing the pointer's
polar coordinates.  The source derives `distance`/`angle` from the
screen point via `hypot`/`atan2`; that transcendental conversion is
abstracted by taking the resulting polar pair as input (every
nonnegative distance and angle in `(-1, 1]` units of pi arises from
some pointer position). -/
def getSectorAtPosition (view : ViewState) (sectors : List Sector)
    (distance angle : ℚ) : Option Sector :=
  if view.scale > 3 then none
  else
    sectors.find? fun sector =>
      decide (distance ≥ sector.innerRadius) && decide (distance ≤ sector.outerRadius) &&
        angleInRange angle sector.startAngle sector.endAngle

/-- The inverse view transform `world = (screen - offset) / scale`
(App.tsx lines 113-114, 191-192, 208-209, 482-483, 502-503;
AdminPanel.tsx lines 843-844), x coordinate. -/
def screenToWorldX (view : ViewState) (x : ℚ) : ℚ :=
  (x - view.offsetX) / view.scale

/-- The inverse view transform, y coordinate. -/
def screenToWorldY (view : ViewState) (y : ℚ) : ℚ :=
  (y - view.offsetY) / view.scale

/-- The wheel factor of App.tsx `handleWheel` (line 284):
`0.95` when scrolling down, `1.05` otherwise. -/
def wheelScaleFactor (deltaY : ℚ) : ℚ :=
  if deltaY > 0 then 19 / 20 else 21 / 20

/-- App.tsx `handleWheel` (lines 277-293): clamps the new scale into
`[0.5, 20]` but recomputes the offsets with the UNCLAMPED factor. -/
def handleWheel (view : ViewState) (mouseX mouseY deltaY : ℚ) : ViewState :=
  let scaleFactor := wheelScaleFactor deltaY
  let newScale := max (1 / 2) (min 20 (view.scale * scaleFactor))
  { view with
    scale := newScale
    offsetX := mouseX - (mouseX - view.offsetX) * scaleFactor
    offsetY := mouseY - (mouseY - view.offsetY) * scaleFactor }

/-- AdminPanel.tsx `predefinedColors` (lines 5-10). -/
def predefinedColors : List String :=
  ["#ff6b6b", "#4ecdc4", "#45b7d1", "#96ceb4", "#feca57",
   "#ff9ff3", "#54a0ff", "#5f27cd", "#00d2d3", "#ff9f43",
   "#c44569", "#f8b500", "#6c5ce7", "#a29bfe", "#fd79a8",
   "#e17055", "#00b894", "#0984e3", "#6c5ce7", "#fdcb6e"]

/-- The fresh sector built by AdminPanel.tsx `addNewSector`
(lines 84-99).  The source uses `sector-${Date.now()}` as the id; the
clock value is abstracted as the `newId` argument. -/
def newSectorTemplate (sectors : List Sector) (newId : String) : Sector :=
  { id := newId
    name := "New Sector"
    startAngle := 0
    endAngle := 1 / 4
    innerRadius := 150
    outerRadius := 250
    color := (predefinedColors.getD (sectors.length % predefinedColors.length) "")
    basePrice := 100
    premiumPrice := 200
    seats := []
    shape := .rounded }

/-- AdminPanel.tsx `addNewSector` (lines 84-99): appends the fresh
sector to the collection with NO collision check. -/
def addNewSector (sectors : List Sector) (newId : String) : List Sector :=
  sectors ++ [newSectorTemplate sectors newId]

/-- AdminPanel.tsx `updateSector` (lines 72-77), specialised to the
angle/radius slider edits of lines 284-337: overwrites the targeted
field of the matching sector with NO collision check. -/
def updateSector (sectors : List Sector) (sectorId : String)
    (updates : Sector → Sector) : List Sector :=
  sectors.map fun sector => if sector.id = sectorId then updates sector else sector

/-- The geometry of the eight sectors built by App.tsx
`initializeStadium` (lines 419-442), in units of pi.  The source also
generates a randomized seat grid per sector (irrelevant to every
collision predicate, modelled as the empty list) and omits copying the
config's `shape` into the sector record; the claims never consult
either field. -/
def initialSectors : List Sector :=
  [{ id := "premium-north-stand", name := "Premium North Stand", startAngle := -1/6,
     endAngle := 1/6, innerRadius := 180, outerRadius := 280, color := "#e11d48",
     basePrice := 250, premiumPrice := 400, seats := [], shape := .rounded },
   { id := "east-upper-tier", name := "East Upper Tier", startAngle := 1/6,
     endAngle := 1/3, innerRadius := 160, outerRadius := 260, color := "#dc2626",
     basePrice := 180, premiumPrice := 320, seats := [], shape := .rounded },
   { id := "east-lower-stand", name := "East Lower Stand", startAngle := 1/3,
     endAngle := 2/3, innerRadius := 140, outerRadius := 240, color := "#ea580c",
     basePrice := 150, premiumPrice := 280, seats := [], shape := .sided },
   { id := "family-stand", name := "Family Stand", startAngle := 2/3,
     endAngle := 5/6, innerRadius := 160, outerRadius := 260, color := "#ca8a04",
     basePrice := 120, premiumPrice := 220, seats := [], shape := .rounded },
   { id := "south-kop", name := "South Kop", startAngle := 5/6,
     endAngle := 7/6, innerRadius := 180, outerRadius := 280, color := "#16a34a",
     basePrice := 200, premiumPrice := 350, seats := [], shape := .sided },
   { id := "west-upper-tier", name := "West Upper Tier", startAngle := 7/6,
     endAngle := 4/3, innerRadius := 160, outerRadius := 260, color := "#0891b2",
     basePrice := 180, premiumPrice := 320, seats := [], shape := .rounded },
   { id := "west-lower-stand", name := "West Lower Stand", startAngle := 4/3,
     endAngle := 5/3, innerRadius := 140, outerRadius := 240, color := "#7c3aed",
     basePrice := 150, premiumPrice := 280, seats := [], shape := .sided },
   { id := "executive-club", name := "Executive Club", startAngle := 5/3,
     endAngle := 11/6, innerRadius := 160, outerRadius := 260, color := "#be185d",
     basePrice := 300, premiumPrice := 500, seats := [], shape := .rounded }]

/-- Radial-range overlap of two sectors, as in the claims' collision
invariant: the closed radial intervals intersect. -/
def RadialOverlap (a b : Sector) : Prop :=
  a.innerRadius ≤ b.outerRadius ∧ b.innerRadius ≤ a.outerRadius

/-- Mod-2*pi angular-range overlap of two sectors: some angle lies in
both angular ranges, membership taken with the program's own
`angleInRange` test. -/
def AngularOverlap (a b : Sector) : Prop :=
  ∃ θ : ℚ, angleInRange θ a.startAngle a.endAngle = true ∧
    angleInRange θ b.startAngle b.endAngle = true

/-- Simultaneous radial and (mod-2*pi) angular overlap — the relation
the claimed collision invariant forbids between distinct live sectors. -/
def SectorsOverlap (a b : Sector) : Prop :=
  RadialOverlap a b ∧ AngularOverlap a b

/-- App.tsx `saveToAdminHistory` (lines 94-99): truncate after the
cursor, append a snapshot, move the cursor to the end.  There is NO
capacity bound in this function. -/
def saveToAdminHistory (history : List (List Sector)) (historyIndex : ℤ)
    (newSectors : List Sector) : List (List Sector) × ℤ :=
  let newHistory := history.take (historyIndex + 1).toNat ++ [newSectors]
  (newHistory, (newHistory.length : ℤ) - 1)

/-- The App-level admin drag state at pointer-up: the sector collection,
the dragged sector id and preview (App.tsx `adminDraggedSector`,
`adminDragPreview`), the grid toggle, and the admin drag history.  The
preview point is stored through the angle `atan2` derives from it
(`previewAngle`, units of pi), the only use the source makes of it at
drag end. -/
structure AdminDragState where
  sectors : List Sector
  draggedId : Option String
  previewAngle : Option ℚ
  showGrid : Bool
  history : List (List Sector)
  historyIndex : ℤ
deriving DecidableEq, Repr

/-- The `sectors.find(s => s.id === adminDraggedSector)` lookup of
App.tsx lines 222 and 237. -/
def findSector (sectors : List Sector) (sectorId : String) : Option Sector :=
  sectors.find? fun s => s.id = sectorId

/-- App.tsx `handleAdminDragEnd` (lines 229-270): with no dragged id or
no preview, clear the drag state and leave the sectors alone; if the
dragged id is not found, return early (source leaves even the drag
state in place); otherwise snap the preview angle, re-check collisions,
and only when there is none overwrite the dragged sector's span with
the candidate, pushing the PRE-commit collection onto the admin
history first. -/
def handleAdminDragEnd (st : AdminDragState) : AdminDragState :=
  match st.draggedId, st.previewAngle with
  | some draggedId, some previewAngle =>
    match findSector st.sectors draggedId with
    | none => st
    | some draggedSector =>
      let snappedAngle := snapToGrid st.showGrid previewAngle
      if checkAdminSectorCollision st.sectors draggedSector snappedAngle then
        { st with draggedId := none, previewAngle := none }
      else
        let sectorSpan := draggedSector.endAngle - draggedSector.startAngle
        let newStartAngle := snappedAngle - sectorSpan / 2
        let newEndAngle := snappedAngle + sectorSpan / 2
        let updatedSectors := st.sectors.map fun sector =>
          if sector.id = draggedId then
            { sector with startAngle := newStartAngle, endAngle := newEndAngle }
          else sector
        let pushed := saveToAdminHistory st.history st.historyIndex st.sectors
        { sectors := updatedSectors
          draggedId := none
          previewAngle := none
          showGrid := st.showGrid
          history := pushed.1
          historyIndex := pushed.2 }
  | _, _ => { st with draggedId := none, previewAngle := none }

/-- AdminPanel.tsx (DragDropAdmin) `HistoryState` (lines 636-639). -/
structure HistoryState where
  sectors : List Sector
  timestamp : ℤ
deriving DecidableEq, Repr

/-- AdminPanel.tsx (DragDropAdmin) `saveToHistory` (lines 724-740):
truncate after the cursor, append; when the result exceeds 50 entries,
shift off the oldest WITHOUT advancing the cursor, otherwise advance
the cursor. -/
def saveToHistory (history : List HistoryState) (historyIndex : ℤ)
    (newState : HistoryState) : List HistoryState × ℤ :=
  let newHistory := history.take (historyIndex + 1).toNat ++ [newState]
  if newHistory.length > 50 then (newHistory.drop 1, historyIndex)
  else (newHistory, historyIndex + 1)

/-- AdminPanel.tsx (DragDropAdmin) drag mode classification values. -/
inductive DragMode
  | free
  | linear
  | radial
deriving DecidableEq, Repr

/-- AdminPanel.tsx (DragDropAdmin) `DragState` (lines 620-634); the
preview position holds the candidate start/end angles. -/
structure DragState where
  isDragging : Bool
  draggedSector : Option Sector
  dragOffset : ℚ × ℚ
  dragMode : DragMode
  previewPosition : Option (ℚ × ℚ)
  isValidPosition : Bool
  dragStartPosition : ℚ × ℚ
  currentPosition : ℚ × ℚ
deriving DecidableEq, Repr

/-- The reset drag state installed at the end of `handleMouseUp`
(AdminPanel.tsx lines 998-1007). -/
def resetDragState : DragState :=
  { isDragging := false
    draggedSector := none
    dragOffset := (0, 0)
    dragMode := .free
    previewPosition := none
    isValidPosition := true
    dragStartPosition := (0, 0)
    currentPosition := (0, 0) }

/-- The combined outcome of the DragDropAdmin pointer-up handler. -/
structure EditorCommit where
  sectors : List Sector
  history : List HistoryState
  historyIndex : ℤ
  dragState : DragState
deriving DecidableEq, Repr

/-- AdminPanel.tsx (DragDropAdmin) `handleMouseUp` (lines 981-1008):
when a drag is in progress with a preview marked valid, overwrite the
dragged sector's span with the preview and push the UPDATED collection
(with the `Date.now()` timestamp abstracted as `now`) onto the history;
in every case reset the drag state. -/
def handleMouseUp (dragState : DragState) (sectors : List Sector)
    (history : List HistoryState) (historyIndex : ℤ) (now : ℤ) : EditorCommit :=
  match dragState.isDragging, dragState.draggedSector,
      dragState.previewPosition, dragState.isValidPosition with
  | true, some draggedSector, some preview, true =>
    let updatedSectors := sectors.map fun sector =>
      if sector.id = draggedSector.id then
        { sector with startAngle := preview.1, endAngle := preview.2 }
      else sector
    let pushed := saveToHistory history historyIndex ⟨updatedSectors, now⟩
    ⟨updatedSectors, pushed.1, pushed.2, resetDragState⟩
  | _, _, _, _ => ⟨sectors, history, historyIndex, resetDragState⟩

/-- The DragDropAdmin component state seen by `handleUndo` and
`handleRedo`: the live sector collection together with the history
stack and its cursor. -/
structure EditorState where
  sectors : List Sector
  history : List HistoryState
  historyIndex : ℤ
deriving DecidableEq, Repr

/-- AdminPanel.tsx (DragDropAdmin) `handleUndo` (lines 743-749): when
the cursor is past the first entry, load the previous snapshot and move
the cursor back. -/
def handleUndo (st : EditorState) : EditorState :=
  if st.historyIndex > 0 then
    { st with
      sectors := (st.history.getD (st.historyIndex - 1).toNat ⟨[], 0⟩).sectors
      historyIndex := st.historyIndex - 1 }
  else st

/-- AdminPanel.tsx (DragDropAdmin) `handleRedo` (lines 751-757): when
the cursor is before the last entry, load the next snapshot and move
the cursor forward. -/
def handleRedo (st : EditorState) : EditorState :=
  if st.historyIndex < (st.history.length : ℤ) - 1 then
    { st with
      sectors := (st.history.getD (st.historyIndex + 1).toNat ⟨[], 0⟩).sectors
      historyIndex := st.historyIndex + 1 }
  else st

/-- The selection/cart state of App.tsx (`selectedSeats`, `cart`). -/
structure SelectionState where
  selectedSeats : List Seat
  cart : List CartItem
deriving DecidableEq, Repr

/-- App.tsx `handleSeatClick` (lines 535-547): toggle — remove the seat
id from both collections when already selected, else append the seat
and a quantity-1 cart item. -/
def handleSeatClick (st : SelectionState) (seat : Seat) : SelectionState :=
  if st.selectedSeats.any fun s => s.id = seat.id then
    { selectedSeats := st.selectedSeats.filter fun s => !(s.id = seat.id)
      cart := st.cart.filter fun item => !(item.seat.id = seat.id) }
  else
    { selectedSeats := st.selectedSeats ++ [seat]
      cart := st.cart ++ [⟨seat, 1⟩] }

/-- App.tsx `removeFromCart` (lines 549-552): filter the id out of both
collections. -/
def removeFromCart (st : SelectionState) (seatId : String) : SelectionState :=
  { selectedSeats := st.selectedSeats.filter fun s => !(s.id = seatId)
    cart := st.cart.filter fun item => !(item.seat.id = seatId) }

/-- App.tsx `clearCart` (lines 554-557). -/
def clearCart (_st : SelectionState) : SelectionState :=
  { selectedSeats := [], cart := [] }

/-- The seat-selection operations reachable from the UI. -/
inductive CartOp
  | click (seat : Seat)
  | remove (seatId : String)
  | clear

/-- Dispatch one selection/cart operation. -/
def applyCartOp (st : SelectionState) (op : CartOp) : SelectionState :=
  match op with
  | .click seat => handleSeatClick st seat
  | .remove seatId => removeFromCart st seatId
  | .clear => clearCart st

/-- Run a sequence of selection/cart operations from the initial empty
state (`useState([])` for both collections, App.tsx lines 67 and 71). -/
def runCartOps (ops : List CartOp) : SelectionState :=
  ops.foldl applyCartOp ⟨[], []⟩

/-! ### Concrete fixtures used by the claim theorems -/

/-- The first touching sector of the claim C3 scenario: angular span
`[0, 45]` degrees, radial band `[140, 240]`. -/
def touchSectorA : Sector :=
  { id := "touch-a", name := "Touch A", startAngle := 0, endAngle := 1/4,
    innerRadius := 140, outerRadius := 240, color := "#ff6b6b",
    basePrice := 100, premiumPrice := 200, seats := [], shape := .rounded }

/-- The second touching sector of the claim C3 scenario: angular span
`[45, 90]` degrees, the same radial band `[140, 240]`. -/
def touchSectorB : Sector :=
  { id := "touch-b", name := "Touch B", startAngle := 1/4, endAngle := 1/2,
    innerRadius := 140, outerRadius := 240, color := "#4ecdc4",
    basePrice := 100, premiumPrice := 200, seats := [], shape := .rounded }

/-- Id of the dragged scenario sector. -/
def dragAId : String := "drag-a"

/-- A sector with a 30-degree span starting at 0, radial band `[150, 250]`. -/
def dragSector30 : Sector :=
  { id := dragAId, name := "Sector A", startAngle := 0, endAngle := 1/6,
    innerRadius := 150, outerRadius := 250, color := "#45b7d1",
    basePrice := 100, premiumPrice := 200, seats := [], shape := .rounded }

/-- A sector occupying `[40, 60]` degrees at the same radial band. -/
def blockSector4060 : Sector :=
  { id := "block-b", name := "Sector B", startAngle := 2/9, endAngle := 1/3,
    innerRadius := 150, outerRadius := 250, color := "#96ceb4",
    basePrice := 100, premiumPrice := 200, seats := [], shape := .rounded }

/-- Drag-end state of the claim C2 scenario: `dragSector30` dragged to
preview angle 50 degrees with snapping disabled, `blockSector4060`
committed at an overlapping radius. -/
def scenarioDragEndState : AdminDragState :=
  { sectors := [dragSector30, blockSector4060]
    draggedId := some dragAId
    previewAngle := some (5/18)
    showGrid := false
    history := []
    historyIndex := -1 }

/-- Drag-end state with only the dragged sector present, so its drag to
90 degrees collides with nothing. -/
def soloDragState : AdminDragState :=
  { sectors := [dragSector30]
    draggedId := some dragAId
    previewAngle := some (1/2)
    showGrid := false
    history := []
    historyIndex := -1 }

/-- A seat positioned inside `hitSector`. -/
def hitSeat : Seat :=
  { id := "hit-0-0", row := 1, seatNumber := 1, sector := "Hit Sector",
    x := 150, y := 10, status := .available, price := 100 }

/-- A sector containing `hitSeat`. -/
def hitSector : Sector :=
  { id := "hit", name := "Hit Sector", startAngle := 0, endAngle := 1/4,
    innerRadius := 140, outerRadius := 240, color := "#54a0ff",
    basePrice := 100, premiumPrice := 200, seats := [hitSeat], shape := .rounded }

/-- Claim C3: "For two sectors with angular spans [0,45] and [45,90]
degrees that share the radial band [140,240], the sector collision test
returns false: ranges that merely touch at a boundary angle do not
count as colliding."  COUNTEREXAMPLE: the DragDropAdmin collision test
uses non-strict comparisons (`!(end < otherStart || start > otherEnd)`),
so it returns TRUE, not false, on exactly this candidate/other pair. -/
theorem C3_touching_sectors_collide_counterexample :
    checkCollision [touchSectorA, touchSectorB] touchSectorA 0 (1/4) = true := by
  decide

/-- Claim C3 amended: ranges that merely touch at a boundary angle DO
count as colliding — the App-level collision test also reports a
collision for the candidate span [0,45] degrees (centre angle 22.5
degrees) against the committed sector [45,90] degrees over the shared
radial band [140,240]. -/
theorem C3_touching_sectors_collide :
    checkAdminSectorCollision [touchSectorA, touchSectorB] touchSectorA (1/8) = true := by
  decide

/-- Claim C4: "The angular membership test normalizes angle, start, and
end independently into [0, 2*pi) by repeated addition of 2*pi (so it
also handles negative multi-wrap inputs) ...".  COUNTEREXAMPLE: the
membership test adds `2*pi` at most ONCE.  For the wrapping range with
start stored as the negative multi-wrap `-370` degrees (`-37/18`, which
is `350` degrees minus two full turns) and end `10` degrees, the angle
`355` degrees is rejected, while the spec-worded repeated-addition
variant accepts it. -/
theorem C4_multiwrap_counterexample :
    angleInRange (71/36) (-37/18) (1/18) = false ∧
      angleInRangeSpec (71/36) (-37/18) (1/18) = true ∧
      (-37/18 : ℚ) + 2 + 2 = 35/18 := by
  refine ⟨by decide, by decide, by norm_num⟩

/-- Claim C4 amended: the angular membership test normalizes angle,
start and end independently by adding `2*pi` AT MOST ONCE — correct for
inputs in `(-2*pi, 2*pi)` but not for multi-wrap inputs — and for the
wrapping range start = 350 degrees, end = 10 degrees (start stored
either as `350` degrees or as the equivalent `-10` degrees) it returns
true for angles 0 and 355 degrees and false for 180 degrees. -/
theorem C4_single_wrap_normalisation :
    (∀ a : ℚ, -2 ≤ a → a < 2 → 0 ≤ normOnce a ∧ normOnce a < 2) ∧
      angleInRange 0 (35/18) (1/18) = true ∧
      angleInRange (71/36) (35/18) (1/18) = true ∧
      angleInRange 1 (35/18) (1/18) = false ∧
      angleInRange 0 (-1/18) (1/18) = true ∧
      angleInRange (71/36) (-1/18) (1/18) = true ∧
      angleInRange 1 (-1/18) (1/18) = false := by
  refine ⟨?_, by decide, by decide, by decide, by decide, by decide, by decide⟩
  intro a hlo hhi
  unfold normOnce
  split <;> constructor <;> linarith

/-- Witness for `C4_single_wrap_normalisation`: its universally
quantified conjunct applied to the single-wrap input `-30` degrees. -/
theorem C4_single_wrap_normalisation_witness :
    0 ≤ normOnce (-1/6) ∧ normOnce (-1/6) < 2 :=
  C4_single_wrap_normalisation.1 (-1/6) (by norm_num) (by norm_num)

/-- The view of the claim C8 counterexample: already at maximum zoom. -/
def maxZoomView : ViewState :=
  { scale := 20, offsetX := 0, offsetY := 0, centerX := 0, centerY := 0 }

/-- Claim C8: "For every wheel-zoom event at pointer position P and
every starting view state, the new scale equals
clamp(scale * factor, 0.5, 20) and the offset is recomputed so that the
world coordinate that was under P before the zoom is still under P
after."  COUNTEREXAMPLE: zooming in at maximum scale clamps the scale
to 20 but still moves the offset with the raw factor `1.05`, so the
world point under the pointer drifts from 5 to 5.25 — far beyond any
floating tolerance. -/
theorem C8_zoom_anchor_clamp_counterexample :
    (handleWheel maxZoomView 100 0 (-1)).scale = 20 ∧
      screenToWorldX maxZoomView 100 = 5 ∧
      screenToWorldX (handleWheel maxZoomView 100 0 (-1)) 100 = 21/4 := by
  refine ⟨by decide, by decide, by decide⟩

/-- Claim C8 amended: the new scale always equals
clamp(scale * factor, 0.5, 20), and WHENEVER the clamp does not bind
(`0.5 <= scale * factor <= 20`) the world coordinate under the pointer
is preserved exactly; when the clamp binds, the offset is still
recomputed with the raw factor and the anchor drifts. -/
theorem C8_zoom_anchored_without_clamp (view : ViewState) (mouseX mouseY deltaY : ℚ)
    (hscale : view.scale ≠ 0)
    (hlo : 1/2 ≤ view.scale * wheelScaleFactor deltaY)
    (hhi : view.scale * wheelScaleFactor deltaY ≤ 20) :
    (handleWheel view mouseX mouseY deltaY).scale = view.scale * wheelScaleFactor deltaY ∧
      screenToWorldX (handleWheel view mouseX mouseY deltaY) mouseX =
        screenToWorldX view mouseX ∧
      screenToWorldY (handleWheel view mouseX mouseY deltaY) mouseY =
        screenToWorldY view mouseY := by
  have hfac : wheelScaleFactor deltaY ≠ 0 := by
    unfold wheelScaleFactor
    split <;> norm_num
  have hclamp : max (1/2 : ℚ) (min 20 (view.scale * wheelScaleFactor deltaY)) =
      view.scale * wheelScaleFactor deltaY := by
    rw [min_eq_right hhi, max_eq_right hlo]
  refine ⟨?_, ?_, ?_⟩
  · simp only [handleWheel, hclamp]
  · simp only [handleWheel, screenToWorldX, hclamp]
    field_simp
    ring
  · simp only [handleWheel, screenToWorldY, hclamp]
    field_simp
    ring

/-- Witness for `C8_zoom_anchored_without_clamp`: a concrete zoom-out
from scale 1 at pointer (10, 20), where the clamp does not bind. -/
theorem C8_zoom_anchored_without_clamp_witness :
    screenToWorldX (handleWheel ⟨1, 3, 4, 0, 0⟩ 10 20 1) 10 =
      screenToWorldX ⟨1, 3, 4, 0, 0⟩ 10 :=
  (C8_zoom_anchored_without_clamp ⟨1, 3, 4, 0, 0⟩ 10 20 1 (by norm_num)
    (by decide) (by decide)).2.1

/-- The view of the claim C9 counterexample: minimum zoom. -/
def minZoomView : ViewState :=
  { scale := 1/2, offsetX := 0, offsetY := 0, centerX := 0, centerY := 0 }

/-- A view at exactly the sector-overview boundary scale 3. -/
def scaleThreeView : ViewState :=
  { scale := 3, offsetX := 0, offsetY := 0, centerX := 0, centerY := 0 }

/-- Claim C9: "sector hit-testing can return a sector only when
view.scale is below an overview threshold, seat hit-testing can return
a seat only when view.scale is above a detail threshold, and there is
no zoom level at which both hit tests are simultaneously active."
COUNTEREXAMPLE: seat hit-testing has NO scale gate, so at the minimum
scale 0.5 (below every threshold) a seat is returned, and the sector
test returns a sector at the same scale — both hit tests are active at
one zoom level. -/
theorem C9_both_hit_tests_active_counterexample :
    getSeatAtPosition minZoomView [hitSector] 75 5 = some hitSeat ∧
      getSectorAtPosition minZoomView [hitSector] 200 (1/8) = some hitSector := by
  refine ⟨by decide, by decide⟩

/-- Claim C9 amended: sector hit-testing is gated — it returns no
sector whenever `view.scale > 3` — but seat hit-testing has no scale
gate at all, so at every scale up to 3 (here: exactly 3) both hit tests
can return hits simultaneously. -/
theorem C9_sector_hit_gated :
    (∀ (view : ViewState) (sectors : List Sector) (distance angle : ℚ),
        3 < view.scale → getSectorAtPosition view sectors distance angle = none) ∧
      getSeatAtPosition scaleThreeView [hitSector] 450 30 = some hitSeat ∧
      getSectorAtPosition scaleThreeView [hitSector] 200 (1/8) = some hitSector := by
  refine ⟨?_, by decide, by decide⟩
  intro view sectors distance angle h
  unfold getSectorAtPosition
  rw [if_pos h]

/-- Witness for `C9_sector_hit_gated`: the gate applied at scale 4. -/
theorem C9_sector_hit_gated_witness :
    getSectorAtPosition ⟨4, 0, 0, 0, 0⟩ [hitSector] 200 (1/8) = none :=
  C9_sector_hit_gated.1 ⟨4, 0, 0, 0, 0⟩ [hitSector] 200 (1/8) (by norm_num)

/-- The first sector built by App.tsx `initializeStadium`. -/
def premiumNorthStand : Sector :=
  { id := "premium-north-stand", name := "Premium North Stand", startAngle := -1/6,
    endAngle := 1/6, innerRadius := 180, outerRadius := 280, color := "#e11d48",
    basePrice := 250, premiumPrice := 400, seats := [], shape := .rounded }

/-- Id stamped on the added sector (`sector-${Date.now()}` in the
source, the clock abstracted). -/
def freshSectorId : String := "sector-1700000000000"

/-- Claim C1: "For every committed mutation of the live sector
collection (drag commit, adding a new sector, slider edits to
radii/angles), the resulting collection contains no two distinct
sectors that simultaneously overlap in both radial range and (mod-2*pi)
angular range".  COUNTEREXAMPLE: `addNewSector` performs NO collision
check; applied to the initial stadium it appends the default sector
`[0, 45]` degrees x `[150, 250]`, which overlaps Premium North Stand
(`[-30, 30]` degrees x `[180, 280]`) in both ranges (common angle 15
degrees, common radii `[180, 250]`). -/
theorem C1_addNewSector_overlap_counterexample :
    premiumNorthStand ∈ addNewSector initialSectors freshSectorId ∧
      newSectorTemplate initialSectors freshSectorId ∈
        addNewSector initialSectors freshSectorId ∧
      premiumNorthStand.id ≠ (newSectorTemplate initialSectors freshSectorId).id ∧
      SectorsOverlap premiumNorthStand (newSectorTemplate initialSectors freshSectorId) := by
  refine ⟨by decide, by decide, by decide, ⟨by decide, by decide⟩, 1/12, by decide, by decide⟩

/-- Claim C1 amended: the no-overlap invariant is enforced only on the
drag-commit path — `handleAdminDragEnd` applies the candidate span
exactly when `checkAdminSectorCollision` clears it against every other
committed sector — while `addNewSector` and the slider edits commit
without any collision check (see the counterexample). -/
theorem C1_drag_commit_collision_gated (st : AdminDragState) (draggedId : String)
    (previewAngle : ℚ) (draggedSector : Sector)
    (h1 : st.draggedId = some draggedId)
    (h2 : st.previewAngle = some previewAngle)
    (h3 : findSector st.sectors draggedId = some draggedSector)
    (h4 : checkAdminSectorCollision st.sectors draggedSector
      (snapToGrid st.showGrid previewAngle) = false) :
    (handleAdminDragEnd st).sectors = st.sectors.map fun sector =>
      if sector.id = draggedId then
        { sector with
          startAngle := snapToGrid st.showGrid previewAngle -
            (draggedSector.endAngle - draggedSector.startAngle) / 2
          endAngle := snapToGrid st.showGrid previewAngle +
            (draggedSector.endAngle - draggedSector.startAngle) / 2 }
      else sector := by
  simp only [handleAdminDragEnd, h1, h2, h3, h4]
  simp

/-- Witness for `C1_drag_commit_collision_gated`: the solo drag commits
and recentres the 30-degree sector at 90 degrees. -/
theorem C1_drag_commit_collision_gated_witness :
    (handleAdminDragEnd soloDragState).sectors =
      [{ dragSector30 with startAngle := 5/12, endAngle := 7/12 }] := by
  rw [C1_drag_commit_collision_gated soloDragState dragAId (1/2) dragSector30
    rfl rfl (by decide) (by decide)]
  decide

/-- The editor drag state of the claim C2 scenario on the DragDropAdmin
path: a radial-gesture drag of the 30-degree sector whose candidate
span is centred at the snapped target 50 degrees, i.e. `[35, 65]`
degrees, with the validity flag already set to false by the move
handler because the candidate collides with `blockSector4060`. -/
def scenarioEditorDragState : DragState :=
  { isDragging := true
    draggedSector := some dragSector30
    dragOffset := (0, 0)
    dragMode := .radial
    previewPosition := some (7/36, 13/36)
    isValidPosition := false
    dragStartPosition := (0, 0)
    currentPosition := (0, 0) }

/-- Claim C2: "For every drag session, if at pointer-up the candidate
position collides with some other sector (or no preview exists), the
drag is discarded and the dragged sector's startAngle/endAngle — and
the whole sector collection — are exactly as before the drag".  This
holds on BOTH drag paths.  App canvas path (`handleAdminDragEnd`): the
sector collection is untouched when the preview is missing, when no
sector is being dragged, and when the snapped candidate collides.
DragDropAdmin editor path (`handleMouseUp`): the sectors, history and
cursor are returned unchanged and the drag session reset when the
preview is missing, when the validity flag is false, and in particular
when that flag carries the move handler's collision verdict
(`isValidPosition = !checkCollision`) and the candidate collides. -/
theorem C2_invalid_drag_discarded :
    (∀ st : AdminDragState, st.previewAngle = none →
      (handleAdminDragEnd st).sectors = st.sectors) ∧
    (∀ st : AdminDragState, st.draggedId = none →
      (handleAdminDragEnd st).sectors = st.sectors) ∧
    (∀ (st : AdminDragState) (draggedId : String) (previewAngle : ℚ)
        (draggedSector : Sector),
      st.draggedId = some draggedId → st.previewAngle = some previewAngle →
      findSector st.sectors draggedId = some draggedSector →
      checkAdminSectorCollision st.sectors draggedSector
        (snapToGrid st.showGrid previewAngle) = true →
      (handleAdminDragEnd st).sectors = st.sectors) ∧
    (∀ (ds : DragState) (sectors : List Sector) (history : List HistoryState)
        (historyIndex now : ℤ),
      ds.previewPosition = none →
      handleMouseUp ds sectors history historyIndex now =
        ⟨sectors, history, historyIndex, resetDragState⟩) ∧
    (∀ (ds : DragState) (sectors : List Sector) (history : List HistoryState)
        (historyIndex now : ℤ),
      ds.isValidPosition = false →
      handleMouseUp ds sectors history historyIndex now =
        ⟨sectors, history, historyIndex, resetDragState⟩) ∧
    (∀ (ds : DragState) (sectors : List Sector) (history : List HistoryState)
        (historyIndex now : ℤ) (draggedSector : Sector) (s e : ℚ),
      ds.draggedSector = some draggedSector →
      ds.previewPosition = some (s, e) →
      ds.isValidPosition = !(checkCollision sectors draggedSector s e) →
      checkCollision sectors draggedSector s e = true →
      handleMouseUp ds sectors history historyIndex now =
        ⟨sectors, history, historyIndex, resetDragState⟩) := by
  refine ⟨?_, ?_, ?_, ?_, ?_, ?_⟩
  · intro st h
    unfold handleAdminDragEnd
    rw [h]
    cases st.draggedId <;> rfl
  · intro st h
    unfold handleAdminDragEnd
    rw [h]
  · intro st draggedId previewAngle draggedSector h1 h2 h3 h4
    simp only [handleAdminDragEnd, h1, h2, h3, h4]
    simp
  · intro ds sectors history historyIndex now h
    unfold handleMouseUp
    rw [h]
    cases ds.isDragging <;> cases ds.draggedSector <;> cases ds.isValidPosition <;> rfl
  · intro ds sectors history historyIndex now h
    unfold handleMouseUp
    rw [h]
    cases ds.isDragging <;> cases ds.draggedSector <;> cases ds.previewPosition <;> rfl
  · intro ds sectors history historyIndex now draggedSector s e h1 h2 h3 h4
    have hflag : ds.isValidPosition = false := by
      rw [h3, h4]
      rfl
    unfold handleMouseUp
    rw [hflag]
    cases ds.isDragging <;> cases ds.draggedSector <;> cases ds.previewPosition <;> rfl

/-- Witness for `C2_invalid_drag_discarded`: the claim's scenario on
both paths — a 30-degree sector dragged to snapped angle 50 degrees
while `[40, 60]` degrees is occupied at overlapping radius.  On the App
path the recomputed candidate collides and pointer-up leaves the
collection unchanged; on the DragDropAdmin path the radial-gesture
candidate `[35, 65]` degrees collides, the validity flag is the
negation of that verdict, and pointer-up returns sectors, history and
cursor unchanged with the drag session reset. -/
theorem C2_invalid_drag_discarded_witness :
    checkAdminSectorCollision scenarioDragEndState.sectors dragSector30
      (snapToGrid scenarioDragEndState.showGrid (5/18)) = true ∧
    (handleAdminDragEnd scenarioDragEndState).sectors =
      [dragSector30, blockSector4060] ∧
    checkCollision [dragSector30, blockSector4060] dragSector30 (7/36) (13/36) = true ∧
    handleMouseUp scenarioEditorDragState [dragSector30, blockSector4060]
      [⟨[dragSector30, blockSector4060], 0⟩] 0 5 =
      ⟨[dragSector30, blockSector4060], [⟨[dragSector30, blockSector4060], 0⟩], 0,
        resetDragState⟩ :=
  ⟨by decide,
    C2_invalid_drag_discarded.2.2.1 scenarioDragEndState dragAId (5/18) dragSector30
      rfl rfl (by decide) (by decide),
    by decide,
    C2_invalid_drag_discarded.2.2.2.2.2 scenarioEditorDragState
      [dragSector30, blockSector4060] [⟨[dragSector30, blockSector4060], 0⟩] 0 5
      dragSector30 (7/36) (13/36) rfl rfl (by decide) (by decide)⟩

/-- The editor drag state of the claim C5 counterexample: a valid
in-progress drag of `dragSector30` with preview span
`[90, 135]` degrees. -/
def editorDragStateC5 : DragState :=
  { isDragging := true
    draggedSector := some dragSector30
    dragOffset := (0, 0)
    dragMode := .free
    previewPosition := some (1/2, 3/4)
    isValidPosition := true
    dragStartPosition := (0, 0)
    currentPosition := (0, 0) }

/-- Claim C5: "For every committed drag, the snapshot pushed onto the
history stack is the sector collection as it was BEFORE the commit".
COUNTEREXAMPLE: the DragDropAdmin pointer-up handler pushes the UPDATED
collection — after this committed drag the newest history entry equals
the post-commit collection, which differs from the pre-commit one. -/
theorem C5_editor_push_postcommit_counterexample :
    (handleMouseUp editorDragStateC5 [dragSector30] [⟨[dragSector30], 0⟩] 0 1).history.getLast? =
      some ⟨(handleMouseUp editorDragStateC5 [dragSector30] [⟨[dragSector30], 0⟩] 0 1).sectors, 1⟩ ∧
      (handleMouseUp editorDragStateC5 [dragSector30] [⟨[dragSector30], 0⟩] 0 1).sectors ≠
        [dragSector30] := by
  refine ⟨by decide, by decide⟩

/-- Claim C5 amended: on the App canvas drag path, the committed drag
pushes the PRE-commit collection (truncated after the cursor) onto the
admin history and only then applies the new state; on the DragDropAdmin
editor path the pushed snapshot is instead the post-commit collection
(see the counterexample). -/
theorem C5_app_drag_end_pushes_precommit (st : AdminDragState) (draggedId : String)
    (previewAngle : ℚ) (draggedSector : Sector)
    (h1 : st.draggedId = some draggedId)
    (h2 : st.previewAngle = some previewAngle)
    (h3 : findSector st.sectors draggedId = some draggedSector)
    (h4 : checkAdminSectorCollision st.sectors draggedSector
      (snapToGrid st.showGrid previewAngle) = false) :
    (handleAdminDragEnd st).history =
      st.history.take (st.historyIndex + 1).toNat ++ [st.sectors] := by
  simp only [handleAdminDragEnd, h1, h2, h3, h4, saveToAdminHistory]
  simp

/-- Witness for `C5_app_drag_end_pushes_precommit`: the solo commit
pushes exactly the pre-commit one-sector collection. -/
theorem C5_app_drag_end_pushes_precommit_witness :
    (handleAdminDragEnd soloDragState).history = [[dragSector30]] := by
  rw [C5_app_drag_end_pushes_precommit soloDragState dragAId (1/2) dragSector30
    rfl rfl (by decide) (by decide)]
  rfl

/-- The sector of `dragSector30` moved to span `[s, e]` (units of pi). -/
def sectorSpanned (s e : ℚ) : Sector :=
  { dragSector30 with startAngle := s, endAngle := e }

/-- A reachable desynchronised editor state: three committed drags
(history entries with timestamps 0, 1, 2), one undo (cursor at 1), then
a slider edit that changed the live collection without touching the
editor history. -/
def desyncEditorState : EditorState :=
  { sectors := [sectorSpanned (3/2) (5/3)]
    history := [⟨[sectorSpanned 0 (1/6)], 0⟩, ⟨[sectorSpanned (1/2) (2/3)], 1⟩,
      ⟨[sectorSpanned 1 (7/6)], 2⟩]
    historyIndex := 1 }

/-- Claim C7: "Whenever neither undo nor redo is a no-op (the cursor is
strictly inside the history stack), performing undo followed by redo
restores the sector-collection state exactly as it was before the
undo."  COUNTEREXAMPLE: in the reachable state above the cursor is
strictly inside (undo and redo both act), yet undo-then-redo replaces
the live collection by the history entry at the cursor, losing the
slider edit. -/
theorem C7_undo_redo_counterexample :
    0 < desyncEditorState.historyIndex ∧
      desyncEditorState.historyIndex < (desyncEditorState.history.length : ℤ) - 1 ∧
      handleRedo (handleUndo desyncEditorState) ≠ desyncEditorState := by
  refine ⟨by decide, by decide, by decide⟩

/-- Claim C7 amended: whenever the cursor is strictly inside the
history stack AND the live collection matches the history entry at the
cursor (which holds right after every committed drag, undo or redo),
undo followed by redo restores the editor state exactly. -/
theorem C7_undo_redo_roundtrip (st : EditorState)
    (h1 : 0 < st.historyIndex)
    (h2 : st.historyIndex < (st.history.length : ℤ) - 1)
    (h3 : st.sectors = (st.history.getD st.historyIndex.toNat ⟨[], 0⟩).sectors) :
    handleRedo (handleUndo st) = st := by
  obtain ⟨sectors, history, historyIndex⟩ := st
  simp only at h1 h2 h3
  unfold handleUndo
  rw [if_pos h1]
  unfold handleRedo
  simp only
  rw [if_pos (by omega)]
  have hidx : historyIndex - 1 + 1 = historyIndex := by ring
  rw [hidx]
  simp [h3]

/-- A synchronised editor state: cursor strictly inside, live
collection equal to the entry at the cursor. -/
def syncedEditorState : EditorState :=
  { sectors := [sectorSpanned (1/2) (2/3)]
    history := [⟨[sectorSpanned 0 (1/6)], 0⟩, ⟨[sectorSpanned (1/2) (2/3)], 1⟩,
      ⟨[sectorSpanned 1 (7/6)], 2⟩]
    historyIndex := 1 }

/-- Witness for `C7_undo_redo_roundtrip` at the synchronised state. -/
theorem C7_undo_redo_roundtrip_witness :
    handleRedo (handleUndo syncedEditorState) = syncedEditorState :=
  C7_undo_redo_roundtrip syncedEditorState (by decide) (by decide) (by decide)

/-- Fold a sequence of snapshot pushes through the DragDropAdmin
`saveToHistory`. -/
def pushAllHistory (history : List HistoryState) (historyIndex : ℤ)
    (snaps : List HistoryState) : List HistoryState × ℤ :=
  snaps.foldl (fun st snap => saveToHistory st.1 st.2 snap) (history, historyIndex)

/-- Fold a sequence of snapshot pushes through the App
`saveToAdminHistory`. -/
def pushAllAdminHistory (history : List (List Sector)) (historyIndex : ℤ)
    (snaps : List (List Sector)) : List (List Sector) × ℤ :=
  snaps.foldl (fun st snap => saveToAdminHistory st.1 st.2 snap) (history, historyIndex)

theorem pushAllHistory_cons (history : List HistoryState) (historyIndex : ℤ)
    (snap : HistoryState) (rest : List HistoryState) :
    pushAllHistory history historyIndex (snap :: rest) =
      pushAllHistory (saveToHistory history historyIndex snap).1
        (saveToHistory history historyIndex snap).2 rest := rfl

theorem pushAllAdminHistory_cons (history : List (List Sector)) (historyIndex : ℤ)
    (snap : List Sector) (rest : List (List Sector)) :
    pushAllAdminHistory history historyIndex (snap :: rest) =
      pushAllAdminHistory (saveToAdminHistory history historyIndex snap).1
        (saveToAdminHistory history historyIndex snap).2 rest := rfl

/-- With the cursor on the newest entry, `saveToAdminHistory` appends
every pushed snapshot: the App admin history grows without bound. -/
theorem pushAllAdminHistory_append :
    ∀ (snaps : List (List Sector)) (history : List (List Sector)),
      pushAllAdminHistory history ((history.length : ℤ) - 1) snaps =
        (history ++ snaps, ((history ++ snaps).length : ℤ) - 1) := by
  intro snaps
  induction snaps with
  | nil => intro history; simp [pushAllAdminHistory]
  | cons snap rest ih =>
    intro history
    have hstep : saveToAdminHistory history ((history.length : ℤ) - 1) snap =
        (history ++ [snap], ((history ++ [snap]).length : ℤ) - 1) := by
      unfold saveToAdminHistory
      have htoNat : ((history.length : ℤ) - 1 + 1).toNat = history.length := by omega
      rw [htoNat, List.take_length]
    rw [pushAllAdminHistory_cons, hstep]
    rw [ih (history ++ [snap])]
    simp

/-- Claim C6: "For every sequence of history pushes, the history stack
never holds more than 50 entries ...".  COUNTEREXAMPLE: the App-level
`saveToAdminHistory` cited by the claim has no capacity bound at all —
51 pushes from the initial empty history leave 51 entries. -/
theorem C6_admin_history_uncapped_counterexample :
    (pushAllAdminHistory [] (-1) (List.replicate 51 [])).1.length = 51 := by
  have h := pushAllAdminHistory_append (List.replicate 51 []) []
  simp only [List.length_nil, Nat.cast_zero, zero_sub, List.nil_append] at h
  rw [h]
  simp

/-- One push through the capped editor history, starting from the last
50 entries of the pushed-so-far list `all` with the cursor on the
newest entry. -/
theorem saveToHistory_lastFifty (all : List HistoryState) (snap : HistoryState)
    (hall : 0 < all.length) :
    saveToHistory (all.drop (all.length - 50)) (((min all.length 50 : ℕ) : ℤ) - 1) snap =
      ((all ++ [snap]).drop ((all ++ [snap]).length - 50),
        ((min (all ++ [snap]).length 50 : ℕ) : ℤ) - 1) := by
  have hdroplen : (all.drop (all.length - 50)).length = min all.length 50 := by
    rw [List.length_drop]
    omega
  have htoNat : ((((min all.length 50 : ℕ) : ℤ) - 1) + 1).toNat = min all.length 50 := by
    omega
  unfold saveToHistory
  rw [htoNat, ← hdroplen, List.take_length]
  by_cases hcap : 50 ≤ all.length
  · have hlen : (all.drop (all.length - 50) ++ [snap]).length = 51 := by
      rw [List.length_append, hdroplen]
      simp
      omega
    rw [if_pos (by rw [hlen]; omega)]
    simp only [Prod.mk.injEq]
    constructor
    · rw [List.drop_append_of_le_length (by rw [hdroplen]; omega), List.drop_drop,
        List.drop_append_of_le_length (by simp)]
      have harith : all.length - 50 + 1 = (all ++ [snap]).length - 50 := by
        simp
        omega
      rw [harith]
    · simp
      omega
  · have hk : all.length - 50 = 0 := by omega
    rw [hk, List.drop_zero]
    have hlen : (all ++ [snap]).length = all.length + 1 := by simp
    rw [if_neg (by rw [hlen]; omega)]
    simp only [Prod.mk.injEq]
    constructor
    · rw [show (all ++ [snap]).length - 50 = 0 by simp; omega, List.drop_zero]
    · simp
      omega

/-- Invariant run of the capped editor history: pushing `snaps` from
the last 50 entries of `all` (cursor on the newest entry) leaves
exactly the last 50 entries of `all ++ snaps`, cursor again on the
newest entry. -/
theorem pushAllHistory_lastFifty :
    ∀ (snaps : List HistoryState) (all : List HistoryState), 0 < all.length →
      pushAllHistory (all.drop (all.length - 50)) (((min all.length 50 : ℕ) : ℤ) - 1) snaps =
        ((all ++ snaps).drop ((all ++ snaps).length - 50),
          ((min (all ++ snaps).length 50 : ℕ) : ℤ) - 1) := by
  intro snaps
  induction snaps with
  | nil => intro all hall; simp [pushAllHistory]
  | cons snap rest ih =>
    intro all hall
    rw [pushAllHistory_cons, saveToHistory_lastFifty all snap hall]
    rw [ih (all ++ [snap]) (by simp)]
    simp

/-- Claim C6 amended: the DragDropAdmin `saveToHistory` stack is capped
at 50 — pushing any `n` snapshots onto the freshly initialised history
(one entry, cursor 0) leaves exactly the last 50 entries of the full
push sequence, so the stack length is `min (n+1) 50`, the oldest
entries beyond 50 are evicted (unreachable by undo), and the cursor
stays on the newest entry — while the App-level `saveToAdminHistory`
has no cap (see the counterexample). -/
theorem C6_editor_history_capped (snaps : List HistoryState) (h0 : HistoryState) :
    pushAllHistory [h0] 0 snaps =
      ((h0 :: snaps).drop ((h0 :: snaps).length - 50),
        ((min (h0 :: snaps).length 50 : ℕ) : ℤ) - 1) := by
  have h := pushAllHistory_lastFifty snaps [h0] (by simp)
  have h1 : ([h0] : List HistoryState).length - 50 = 0 := by simp
  have h2 : ((min ([h0] : List HistoryState).length 50 : ℕ) : ℤ) - 1 = 0 := by simp
  rw [h1, List.drop_zero, h2] at h
  simpa using h

/-- Count of seats carrying the given id in the selection list. -/
def seatIdCount (seats : List Seat) (seatId : String) : ℕ :=
  seats.countP fun s => s.id = seatId

/-- Count of cart items carrying the given seat id. -/
def cartIdCount (cart : List CartItem) (seatId : String) : ℕ :=
  cart.countP fun item => item.seat.id = seatId

/-- The consistency property of claim C10: a seat id is selected iff
exactly one cart item carries it, and every cart item has quantity 1. -/
def CartConsistent (st : SelectionState) : Prop :=
  (∀ seatId : String,
      (∃ s ∈ st.selectedSeats, s.id = seatId) ↔ cartIdCount st.cart seatId = 1) ∧
    ∀ item ∈ st.cart, item.quantity = 1

/-- Strengthened induction invariant: the selection and the cart carry
every id the same number of times, no id occurs twice in the
selection, and every cart item has quantity 1. -/
def CartStrongInv (st : SelectionState) : Prop :=
  (∀ seatId : String, seatIdCount st.selectedSeats seatId = cartIdCount st.cart seatId) ∧
    (∀ seatId : String, seatIdCount st.selectedSeats seatId ≤ 1) ∧
    ∀ item ∈ st.cart, item.quantity = 1

/-- Counting ids after filtering an id out: zero for the removed id,
unchanged for every other id. -/
theorem countP_filter_idne {α : Type} (l : List α) (f : α → String)
    (seatId seatId0 : String) :
    ((l.filter fun a => !(f a = seatId0)).countP fun a => f a = seatId) =
      if seatId = seatId0 then 0 else l.countP fun a => f a = seatId := by
  rw [List.countP_filter]
  by_cases hid : seatId = seatId0
  · subst hid
    rw [if_pos rfl]
    apply List.countP_eq_zero.mpr
    intro a _
    simp
  · rw [if_neg hid]
    apply List.countP_congr
    intro a _
    simp only [Bool.and_eq_true, decide_eq_true_eq, Bool.not_eq_true',
      decide_eq_false_iff_not]
    constructor
    · rintro ⟨h1, _⟩
      exact h1
    · intro h1
      refine ⟨h1, ?_⟩
      rw [h1]
      exact hid

/-- Every selection/cart operation preserves the strengthened
invariant. -/
theorem cartStrongInv_applyCartOp (st : SelectionState) (op : CartOp)
    (h : CartStrongInv st) : CartStrongInv (applyCartOp st op) := by
  obtain ⟨hcnt, hle, hqty⟩ := h
  cases op with
  | clear =>
    refine ⟨fun _ => rfl, fun _ => Nat.zero_le _, ?_⟩
    intro item hitem
    simp [applyCartOp, clearCart] at hitem
  | remove seatId0 =>
    refine ⟨?_, ?_, ?_⟩
    · intro seatId
      simp only [applyCartOp, removeFromCart, seatIdCount, cartIdCount]
      rw [countP_filter_idne st.selectedSeats Seat.id seatId seatId0,
        countP_filter_idne st.cart (fun item => item.seat.id) seatId seatId0]
      split
      · rfl
      · exact hcnt seatId
    · intro seatId
      simp only [applyCartOp, removeFromCart, seatIdCount]
      rw [countP_filter_idne st.selectedSeats Seat.id seatId seatId0]
      split
      · exact Nat.zero_le _
      · exact hle seatId
    · intro item hitem
      simp only [applyCartOp, removeFromCart, List.mem_filter] at hitem
      exact hqty item hitem.1
  | click seat =>
    by_cases hsel : (st.selectedSeats.any fun s => s.id = seat.id) = true
    · refine ⟨?_, ?_, ?_⟩
      · intro seatId
        simp only [applyCartOp, handleSeatClick, hsel, if_true, seatIdCount, cartIdCount]
        rw [countP_filter_idne st.selectedSeats Seat.id seatId seat.id,
          countP_filter_idne st.cart (fun item => item.seat.id) seatId seat.id]
        split
        · rfl
        · exact hcnt seatId
      · intro seatId
        simp only [applyCartOp, handleSeatClick, hsel, if_true, seatIdCount]
        rw [countP_filter_idne st.selectedSeats Seat.id seatId seat.id]
        split
        · exact Nat.zero_le _
        · exact hle seatId
      · intro item hitem
        simp only [applyCartOp, handleSeatClick, hsel, if_true, List.mem_filter] at hitem
        exact hqty item hitem.1
    · have hself : (st.selectedSeats.any fun s => s.id = seat.id) = false := by
        revert hsel
        cases st.selectedSeats.any fun s => s.id = seat.id <;> simp
      have hzero : seatIdCount st.selectedSeats seat.id = 0 := by
        apply List.countP_eq_zero.mpr
        intro s hs
        intro hcontra
        exact hsel (List.any_eq_true.mpr ⟨s, hs, hcontra⟩)
      have hcart : cartIdCount st.cart seat.id = 0 := by
        rw [← hcnt seat.id]
        exact hzero
      refine ⟨?_, ?_, ?_⟩
      · intro seatId
        simp only [applyCartOp, handleSeatClick, hself, Bool.false_eq_true, if_false,
          seatIdCount, cartIdCount, List.countP_append]
        by_cases hid : seatId = seat.id
        · subst hid
          simp only [seatIdCount] at hzero
          simp only [cartIdCount] at hcart
          rw [hzero, hcart]
          simp
        · have h1 : (List.countP (fun s => decide (s.id = seatId)) [seat]) = 0 := by
            simp only [List.countP_cons, List.countP_nil, decide_eq_true_eq]
            rw [if_neg (fun hcontra => hid hcontra.symm)]
          have h2 : (List.countP (fun item => decide (item.seat.id = seatId))
              [(⟨seat, 1⟩ : CartItem)]) = 0 := by
            simp only [List.countP_cons, List.countP_nil, decide_eq_true_eq]
            rw [if_neg (fun hcontra => hid hcontra.symm)]
          rw [h1, h2]
          simpa using hcnt seatId
      · intro seatId
        simp only [applyCartOp, handleSeatClick, hself, Bool.false_eq_true, if_false,
          seatIdCount, List.countP_append]
        by_cases hid : seatId = seat.id
        · subst hid
          simp only [seatIdCount] at hzero
          rw [hzero]
          simp
        · have h1 : (List.countP (fun s => decide (s.id = seatId)) [seat]) = 0 := by
            simp only [List.countP_cons, List.countP_nil, decide_eq_true_eq]
            rw [if_neg (fun hcontra => hid hcontra.symm)]
          rw [h1]
          simpa using hle seatId
      · intro item hitem
        simp only [applyCartOp, handleSeatClick, hself, Bool.false_eq_true, if_false,
          List.mem_append, List.mem_singleton] at hitem
        cases hitem with
        | inl hmem => exact hqty item hmem
        | inr heq => rw [heq]

/-- Running any operation sequence from the empty state keeps the
strengthened invariant. -/
theorem cartStrongInv_runCartOps (ops : List CartOp) : CartStrongInv (runCartOps ops) := by
  suffices h : ∀ (ops : List CartOp) (st : SelectionState), CartStrongInv st →
      CartStrongInv (ops.foldl applyCartOp st) by
    refine h ops ⟨[], []⟩ ⟨fun _ => rfl, fun _ => Nat.zero_le _, ?_⟩
    intro item hitem
    simp at hitem
  intro ops
  induction ops with
  | nil => intro st hst; exact hst
  | cons op rest ih =>
    intro st hst
    exact ih _ (cartStrongInv_applyCartOp st op hst)

/-- Claim C10: "Starting from empty selection and empty cart, after
every sequence of seat click-toggles, single-item cart removals, and
cart clears, the selection set and the cart are consistent: a seat id
is in selectedSeats if and only if exactly one cart item with that seat
id exists, and every cart item has quantity 1." -/
theorem C10_selection_cart_consistent (ops : List CartOp) :
    CartConsistent (runCartOps ops) := by
  obtain ⟨hcnt, hle, hqty⟩ := cartStrongInv_runCartOps ops
  refine ⟨?_, hqty⟩
  intro seatId
  constructor
  · rintro ⟨s, hs, hid⟩
    have hpos : 0 < seatIdCount (runCartOps ops).selectedSeats seatId := by
      apply List.countP_pos_iff.mpr
      exact ⟨s, hs, by simp [hid]⟩
    have h1 := hle seatId
    have h2 := hcnt seatId
    omega
  · intro hone
    have hpos : 0 < seatIdCount (runCartOps ops).selectedSeats seatId := by
      have h2 := hcnt seatId
      omega
    obtain ⟨s, hs, hp⟩ := List.countP_pos_iff.mp hpos
    exact ⟨s, hs, by simpa using hp⟩

/-- Witness for `C6_editor_history_capped`: pushing one snapshot onto
the freshly initialised history appends it and advances the cursor. -/
theorem C6_editor_history_capped_witness :
    pushAllHistory [⟨[], 0⟩] 0 [⟨[], 5⟩] = ([⟨[], 0⟩, ⟨[], 5⟩], 1) := by
  rw [C6_editor_history_capped [⟨[], 5⟩] ⟨[], 0⟩]
  decide

/-- Witness for `C10_selection_cart_consistent`: the consistency
property at the concrete one-click operation sequence. -/
theorem C10_selection_cart_consistent_witness :
    CartConsistent (runCartOps [CartOp.click hitSeat]) :=
  C10_selection_cart_consistent [CartOp.click hitSeat]
